import Mathlib

/-!
Shallow embedding of the FMOD-backed Quake sound core (Quake/snd_fmod.c).

Floats are modelled as rationals, FMOD channel handles as voice ids
allocated from a counter, the global mutable state of snd_fmod.c as an
explicit record threaded through the operations, and rand() as an
explicit parameter. Each FMOD call that mutates a channel is a small
named function on the Voice record; calls into the FMOD library that can
fail (FMOD_System_PlaySound, the S_Startup steps) take their outcome as
an explicit boolean parameter.
-/

namespace SndFmod

/-- vec3_t / FMOD_VECTOR as a triple of rationals. -/
abbrev V3 := ℚ × ℚ × ℚ

/-- FMOD_VectorCopy from snd_fmod.c line 47: b.x = a[0], b.y = a[2], b.z = a[1]. -/
def fmodVec (v : V3) : V3 := (v.1, v.2.2, v.2.1)

/-- MAX_CHANNELS, from the engine headers (quakespasm sound.h); bounds the
entsounds table indexed by entity number. -/
def MAX_CHANNELS : Int := 1024

/-- NUM_AMBIENTS from the engine headers (water and sky). -/
def NUM_AMBIENTS : Nat := 2

/-- sound_nominal_clip_dist, snd_fmod.c line 48. -/
def sound_nominal_clip_dist : ℚ := 1000

/-- The parts of sfx_t that snd_fmod.c reads: identity (name), whether
S_LoadSound left a loaded FMOD sound attached (sound != NULL), the loop
markers in milliseconds (negative loopstart = not looped), and the total
length in milliseconds. -/
structure Sfx where
  name : String
  loaded : Bool
  loopstart : Int
  loopend : Int
  length : Nat

/-- Identity of a soundslot_t: either an entry of the entsounds grid or a
heap (zone) allocated anonymous slot. -/
inductive SlotId where
  | tracked (entnum entchannel : Nat)
  | anon (n : Nat)

/-- soundslot_t, snd_fmod.c lines 50-55. The channel pointer becomes an
optional voice id. -/
structure SoundSlot where
  zone : Bool
  channel : Option Nat
  dist_mult : ℚ

instance : Inhabited SoundSlot := ⟨{ zone := false, channel := none, dist_mult := 0 }⟩

/-- The observable attributes this code sets on an FMOD_CHANNEL: position,
volume, loop mode and points, attached user data (the owning slot), 3D
level, priority, the scheduled DSP-clock start (FMOD_Channel_SetDelay),
any scheduled fade ramp (FMOD_Channel_SetFadePointRamp target clock and
volume), and the paused flag. -/
structure Voice where
  sfxName : String
  position : V3
  volume : ℚ
  loopMode : Bool
  loopPoints : Option (Int × Int)
  userdata : Option SlotId
  threeDLevel : ℚ
  priority : Nat
  startClock : Nat
  fadeRamp : Option (Nat × ℚ)
  paused : Bool

/-- FMOD_Channel_Set3DAttributes on a channel (position only; this code
never sets a velocity). -/
def FMOD_Channel_Set3DAttributes (v : Voice) (position : V3) : Voice :=
  { v with position := position }

/-- FMOD_Channel_SetVolume on a channel. -/
def FMOD_Channel_SetVolume (v : Voice) (vol : ℚ) : Voice :=
  { v with volume := vol }

/-- FMOD_Channel_SetMode on a channel: FMOD_LOOP_NORMAL = true,
FMOD_LOOP_OFF = false. -/
def FMOD_Channel_SetMode (v : Voice) (loop : Bool) : Voice :=
  { v with loopMode := loop }

/-- FMOD_Channel_SetLoopPoints on a channel (both in FMOD_TIMEUNIT_MS). -/
def FMOD_Channel_SetLoopPoints (v : Voice) (ls le : Int) : Voice :=
  { v with loopPoints := some (ls, le) }

/-- FMOD_Channel_SetUserData on a channel: attach the owning slot. -/
def FMOD_Channel_SetUserData (v : Voice) (id : SlotId) : Voice :=
  { v with userdata := some id }

/-- FMOD_Channel_Set3DLevel on a channel. -/
def FMOD_Channel_Set3DLevel (v : Voice) (l : ℚ) : Voice :=
  { v with threeDLevel := l }

/-- FMOD_Channel_SetPriority on a channel. -/
def FMOD_Channel_SetPriority (v : Voice) (p : Nat) : Voice :=
  { v with priority := p }

/-- FMOD_Channel_SetDelay on a channel: schedule the DSP-clock start. -/
def FMOD_Channel_SetDelay (v : Voice) (clock : Nat) : Voice :=
  { v with startClock := clock }

/-- FMOD_Channel_SetFadePointRamp on a channel: schedule a fade to the
given volume at the given DSP clock. -/
def FMOD_Channel_SetFadePointRamp (v : Voice) (clock : Nat) (vol : ℚ) : Voice :=
  { v with fadeRamp := some (clock, vol) }

/-- FMOD_Channel_SetPaused on a channel. -/
def FMOD_Channel_SetPaused (v : Voice) (p : Bool) : Voice :=
  { v with paused := p }

/-- The global mutable state of snd_fmod.c: the FMOD system handle
(present or NULL), sound_started, the driver sample rate, the entsounds
grid, the zone heap of anonymous slots, the live FMOD channels (voices),
the channel group DSP clock, the per-frame trigger record sfxThisFrame
(a list whose length is numSfxThisFrame), the ambient channel volumes
(none = channel not started), listener_origin, the sfxvolume cvar with
its old_volume shadow, and the console log. -/
structure SndState where
  fmodSystem : Bool
  soundStarted : Bool
  samplerate : Nat
  entsounds : Nat → Nat → SoundSlot
  anonSlots : Nat → Option SoundSlot
  nextAnon : Nat
  voices : Nat → Option Voice
  nextVoice : Nat
  dspclock : Nat
  sfxThisFrame : List String
  ambients : Nat → Option ℚ
  listenerOrigin : V3
  sfxvolume : ℚ
  oldVolume : ℚ
  log : List String

/-- Look up a slot by identity. -/
def getSlot (s : SndState) : SlotId → Option SoundSlot
  | .tracked en ch => some (s.entsounds en ch)
  | .anon n => s.anonSlots n

/-- Store a slot by identity. -/
def setSlot (s : SndState) (id : SlotId) (sl : SoundSlot) : SndState :=
  match id with
  | .tracked en ch =>
      { s with entsounds := fun a b => if a = en ∧ b = ch then sl else s.entsounds a b }
  | .anon n =>
      { s with anonSlots := fun m => if m = n then some sl else s.anonSlots m }

/-- Con_Printf: append a console line. -/
def logMsg (s : SndState) (m : String) : SndState :=
  { s with log := s.log ++ [m] }

/-- Z_Malloc of a soundslot_t (snd_fmod.c line 280): zone memory is
zeroed, so the fresh anonymous slot has no channel and dist_mult 0. -/
def Z_MallocSlot (s : SndState) : SndState × SlotId :=
  ({ s with
      anonSlots := fun m =>
        if m = s.nextAnon then some { zone := true, channel := none, dist_mult := 0 }
        else s.anonSlots m
      nextAnon := s.nextAnon + 1 },
   SlotId.anon s.nextAnon)

/-- FMOD_System_PlaySound on success: register the finished voice record
under the next channel id. -/
def commitVoice (s : SndState) (vid : Nat) (v : Voice) : SndState :=
  { s with
      voices := fun m => if m = vid then some v else s.voices m
      nextVoice := vid + 1 }

/-- The per-frame trigger record write, snd_fmod.c lines 456-457:
sfxThisFrame[numSfxThisFrame++] = sfx, guarded by numSfxThisFrame < 16. -/
def recordSfxThisFrame (s : SndState) (name : String) : SndState :=
  if s.sfxThisFrame.length < 16 then { s with sfxThisFrame := s.sfxThisFrame ++ [name] }
  else s

/-- The retire sequence applied to an already-playing channel
(snd_fmod.c lines 293-295 and 532-534): schedule a fade ramp to volume 0
at dspclock + 64 and disable looping. -/
def retireVoice (s : SndState) (vid : Nat) : SndState :=
  { s with voices := fun m =>
      if m = vid then
        (s.voices vid).map fun v =>
          FMOD_Channel_SetMode (FMOD_Channel_SetFadePointRamp v (s.dspclock + 64) 0) false
      else s.voices m }

/-- SND_GetDelay, snd_fmod.c lines 177-188. maxms is maxseconds * 1000;
randVal is the value returned by rand(). -/
def SND_GetDelay (sfx : Sfx) (maxms randVal samplerate : Nat) : Nat :=
  let d1 := if maxms > sfx.length then sfx.length else maxms
  let d2 := if d1 > 0 then randVal % d1 else d1
  d2 * samplerate / 1000

/-- SND_FMOD_Attenuation, snd_fmod.c lines 198-218. The userdata argument
is the slot attached to the channel, or none when the channel carries no
user data (then full volume is returned). -/
def SND_FMOD_Attenuation (userdata : Option SoundSlot) (distance : ℚ) : ℚ :=
  match userdata with
  | none => 1
  | some soundslot =>
      let scale := 1 - distance * soundslot.dist_mult
      if scale < 0 then 0 else scale

/-- SND_FMOD_Callback, snd_fmod.c lines 228-251, at an end-of-playback
notification for voice vid: free the attached slot if it is zone
allocated. -/
def SND_FMOD_Callback (s : SndState) (vid : Nat) : SndState :=
  match s.voices vid with
  | none => s
  | some v =>
      match v.userdata with
      | none => s
      | some (SlotId.tracked _ _) => s
      | some (SlotId.anon n) =>
          match s.anonSlots n with
          | none => s
          | some sl =>
              if sl.zone then
                { s with anonSlots := fun m => if m = n then none else s.anonSlots m }
              else s

/-- SND_FMOD_SetChannelAttributes, snd_fmod.c lines 253-270. -/
def SND_FMOD_SetChannelAttributes (v : Voice) (sfx : Sfx) (origin : V3) (vol : ℚ) : Voice :=
  let v1 := FMOD_Channel_SetVolume (FMOD_Channel_Set3DAttributes v (fmodVec origin)) vol
  if 0 ≤ sfx.loopstart then
    FMOD_Channel_SetLoopPoints (FMOD_Channel_SetMode v1 true) sfx.loopstart sfx.loopend
  else
    FMOD_Channel_SetMode v1 false

/-- SND_PickSoundSlot, snd_fmod.c lines 272-301. Returns the updated
state and the identity of the chosen slot. -/
def SND_PickSoundSlot (s : SndState) (entnum entchannel : Int) : SndState × SlotId :=
  if entnum < 0 ∨ MAX_CHANNELS ≤ entnum ∨ entchannel = 0 ∨ 7 < entchannel then
    Z_MallocSlot s
  else
    let ch : Nat := if entchannel < 0 then 0 else entchannel.toNat
    let en : Nat := entnum.toNat
    let slot := s.entsounds en ch
    let s1 :=
      match slot.channel with
      | some v => setSlot (retireVoice s v) (.tracked en ch) { slot with channel := none }
      | none => s
    let slot1 := s1.entsounds en ch
    (setSlot s1 (.tracked en ch) { slot1 with zone := false }, SlotId.tracked en ch)

/-- A freshly created FMOD channel right after FMOD_System_PlaySound
(paused = 1): defaults before any attribute is set. -/
def freshVoice (sfx : Sfx) (clock : Nat) : Voice :=
  { sfxName := sfx.name
    position := (0, 0, 0)
    volume := 1
    loopMode := false
    loopPoints := none
    userdata := none
    threeDLevel := 1
    priority := 128
    startClock := clock
    fadeRamp := none
    paused := true }

/-- S_StartSound, snd_fmod.c lines 400-460. nosound is the nosound cvar,
viewentity is cl.viewentity, playOk the outcome of FMOD_System_PlaySound,
randVal the value rand() would return for the duplicate delay. -/
def S_StartSound (s : SndState) (entnum entchannel : Int) (sfxOpt : Option Sfx)
    (origin : V3) (fvol att : ℚ) (viewentity : Int) (nosound : Bool)
    (playOk : Bool) (randVal : Nat) : SndState :=
  match sfxOpt with
  | none => s
  | some sfx =>
      if s.fmodSystem = false then s
      else if nosound then s
      else if sfx.loaded = false then s
      else
        let ps := SND_PickSoundSlot s entnum entchannel
        let s1 := ps.1
        let slotId := ps.2
        if playOk = false then logMsg s1 "Failed to play FMOD sound"
        else
          let vid := s1.nextVoice
          let v1 := SND_FMOD_SetChannelAttributes (freshVoice sfx s1.dspclock) sfx origin fvol
          let slot := (getSlot s1 slotId).getD default
          let s2 := setSlot s1 slotId
            { slot with channel := some vid, dist_mult := att / sound_nominal_clip_dist }
          let v2 := FMOD_Channel_SetUserData v1 slotId
          let v3 :=
            if entchannel < 0 ∨ entnum = viewentity then
              FMOD_Channel_SetPriority (FMOD_Channel_Set3DLevel v2 0) 64
            else v2
          let v4 :=
            if sfx.name ∈ s2.sfxThisFrame then
              FMOD_Channel_SetDelay v3
                (s2.dspclock + SND_GetDelay sfx 100 randVal s2.samplerate)
            else v3
          let s3 := recordSfxThisFrame s2 sfx.name
          commitVoice s3 vid (FMOD_Channel_SetPaused v4 false)

/-- S_StaticSound, snd_fmod.c lines 470-514. Volume and attenuation
arrive in 0-255 range; playOk is the outcome of FMOD_System_PlaySound and
randVal the value rand() would return for the start delay. -/
def S_StaticSound (s : SndState) (sfxOpt : Option Sfx) (origin : V3) (vol att : ℚ)
    (playOk : Bool) (randVal : Nat) : SndState :=
  match sfxOpt with
  | none => s
  | some sfx =>
      if s.fmodSystem = false then s
      else if sfx.loaded = false then s
      else if sfx.loopstart < 0 then
        logMsg s ("Sound " ++ sfx.name ++ " not looped")
      else if playOk = false then
        logMsg s "Failed to play static FMOD sound"
      else
        let vid := s.nextVoice
        let v1 := SND_FMOD_SetChannelAttributes (freshVoice sfx s.dspclock) sfx origin
          (vol / 255)
        let ps := SND_PickSoundSlot s (-1) (-1)
        let s1 := ps.1
        let slotId := ps.2
        let slot := (getSlot s1 slotId).getD default
        let s2 := setSlot s1 slotId
          { slot with channel := some vid, dist_mult := (att / 64) / sound_nominal_clip_dist }
        let v2 := FMOD_Channel_SetDelay (FMOD_Channel_SetUserData v1 slotId)
          (s2.dspclock + SND_GetDelay sfx 200 randVal s2.samplerate)
        commitVoice s2 vid (FMOD_Channel_SetPaused v2 false)

/-- S_StopSound, snd_fmod.c lines 516-537. -/
def S_StopSound (s : SndState) (entnum entchannel : Int) : SndState :=
  if s.fmodSystem = false then s
  else if entnum < 0 ∨ MAX_CHANNELS ≤ entnum ∨ entchannel < 0 ∨ 7 < entchannel then s
  else
    let en := entnum.toNat
    let ch := entchannel.toNat
    let slot := s.entsounds en ch
    match slot.channel with
    | none => s
    | some v => setSlot (retireVoice s v) (.tracked en ch) { slot with channel := none }

/-- SND_StartAmbientSounds, snd_fmod.c lines 339-344: a fresh channel per
ambient, unpaused at volume 0. -/
def SND_StartAmbientSounds (s : SndState) : SndState :=
  { s with ambients := fun i => if i < NUM_AMBIENTS then some 0 else none }

/-- S_StopAllSounds, snd_fmod.c lines 539-554: FMOD_ChannelGroup_Stop
stops every channel in the SFX group (including ambients), the END
callbacks free all zone slots; with clear set the ambients are restarted. -/
def S_StopAllSounds (s : SndState) (clear : Bool) : SndState :=
  if s.fmodSystem = false then s
  else
    let s1 := { s with
                voices := fun _ => none
                anonSlots := fun _ => none
                ambients := fun _ => none }
    if clear then SND_StartAmbientSounds s1 else s1

/-- The ambient volume target for one channel, snd_fmod.c lines 369-371:
vol = ambient_level * leaf level / 255, zeroed below the 0.03 threshold. -/
def ambientTarget (ambient_level : ℚ) (lvl : Nat) : ℚ :=
  let vol := ambient_level * (lvl : ℚ) / 255
  if vol < 3 / 100 then 0 else vol

/-- The per-channel body of S_UpdateAmbientSounds, snd_fmod.c lines
363-389, as a function from the current channel volume to the new one.
leaf carries the enclosing leaf ambient_sound_level array (none when the
listener position is in no valid leaf). -/
def S_UpdateAmbientChannel (leaf : Option (Nat → Nat)) (i : Nat)
    (ambient_level ambient_fade frametime cv : ℚ) : ℚ :=
  match leaf with
  | none => 0
  | some lvls =>
      if ambient_level = 0 then 0
      else
        let vol := ambientTarget ambient_level (lvls i)
        let rate := frametime * (ambient_fade / 255)
        if cv < vol then
          let cv2 := cv + rate
          if vol < cv2 then vol else cv2
        else if vol < cv then
          let cv2 := cv - rate
          if cv2 < vol then vol else cv2
        else cv

/-- Iterated ambient updates with a fixed leaf and fixed cvar values. -/
def ambientIter (leaf : Option (Nat → Nat)) (i : Nat)
    (ambient_level ambient_fade frametime : ℚ) : Nat → ℚ → ℚ
  | 0, cv => cv
  | n + 1, cv =>
      ambientIter leaf i ambient_level ambient_fade frametime n
        (S_UpdateAmbientChannel leaf i ambient_level ambient_fade frametime cv)

/-- S_Update, snd_fmod.c lines 562-595: clamp the sfxvolume cvar, store
the listener origin, run the ambient update, and clear the per-frame
trigger record. -/
def S_Update (s : SndState) (origin _forward _up : V3)
    (leaf : Option (Nat → Nat)) (ambient_level ambient_fade frametime : ℚ) : SndState :=
  if s.fmodSystem = false then s
  else
    let s1 :=
      if s.oldVolume ≠ s.sfxvolume then
        let v := if s.sfxvolume < 0 then 0 else if 1 < s.sfxvolume then 1 else s.sfxvolume
        { s with sfxvolume := v, oldVolume := v }
      else s
    let s2 := { s1 with listenerOrigin := origin }
    let amb := fun i =>
      if i < NUM_AMBIENTS then
        (s2.ambients i).map
          (S_UpdateAmbientChannel leaf i ambient_level ambient_fade frametime)
      else s2.ambients i
    let s3 := { s2 with ambients := amb }
    { s3 with sfxThisFrame := [] }

/-- The outcome of each fallible step of S_Startup, snd_fmod.c lines
69-144, plus the sample rate FMOD_System_GetDriverInfo reports. -/
structure StartupResults where
  createOk : Bool
  versionOk : Bool
  versionGE : Bool
  channelsOk : Bool
  initOk : Bool
  driverOk : Bool
  driverInfoOk : Bool
  groupOk : Bool
  samplerate : Nat

/-- S_Startup, snd_fmod.c lines 69-144. FMOD_System_Create stores the
system handle on success only; every later failure returns with the
handle already set and sound_started still false. -/
def S_Startup (r : StartupResults) (s : SndState) : SndState :=
  if r.createOk = false then
    logMsg s "Failed to create FMOD System"
  else
    let s1 := { s with fmodSystem := true }
    if r.versionOk = false then
      logMsg s1 "Failed to retrieve FMOD version"
    else if r.versionGE = false then
      logMsg s1 "Incorrect FMOD library version"
    else if r.channelsOk = false then
      logMsg s1 "Failed to set number of FMOD software channels"
    else if r.initOk = false then
      logMsg s1 "Failed to initialize FMOD System"
    else if r.driverOk = false then
      logMsg s1 "Failed to retrieve selected FMOD driver"
    else if r.driverInfoOk = false then
      logMsg s1 "Failed to retrieve FMOD driver info"
    else
      let s2 := { s1 with samplerate := r.samplerate }
      if r.groupOk = false then
        logMsg s2 "Failed to create FMOD SFX channel group"
      else
        { s2 with
            entsounds := fun _ _ => default
            sfxThisFrame := []
            soundStarted := true }

/-- The state before S_Startup: all globals at their static initial
values. -/
def initState : SndState :=
  { fmodSystem := false
    soundStarted := false
    samplerate := 48000
    entsounds := fun _ _ => default
    anonSlots := fun _ => none
    nextAnon := 0
    voices := fun _ => none
    nextVoice := 0
    dspclock := 0
    sfxThisFrame := []
    ambients := fun _ => none
    listenerOrigin := (0, 0, 0)
    sfxvolume := 1
    oldVolume := -1
    log := [] }

/-! ## Concrete states and assets for evaluation -/

/-- A state with the FMOD system created and fully initialized. -/
def stSys : SndState := { initState with fmodSystem := true, soundStarted := true }

/-- A loaded looped test asset. -/
def loopedSfx : Sfx :=
  { name := "hum", loaded := true, loopstart := 0, loopend := 900, length := 1000 }

/-- A loaded non-looped test asset. -/
def shotSfx : Sfx :=
  { name := "shot", loaded := true, loopstart := -1, loopend := -1, length := 100 }

/-- A state with entity 5 channel 1 occupied by voice 0. -/
def occState : SndState :=
  { stSys with
    entsounds := fun a b =>
      if a = 5 ∧ b = 1 then { zone := false, channel := some 0, dist_mult := 1 / 1000 }
      else default
    voices := fun m => if m = 0 then some (freshVoice shotSfx 0) else none
    nextVoice := 1 }

/-- First start of shotSfx from a clean frame. -/
def dupS1 : SndState := S_StartSound stSys 1 1 (some shotSfx) (0, 0, 0) 1 1 0 false true 0

/-- A second start of the same asset in the same frame, with rand()
returning 0 for the duplicate delay. -/
def dupS2 : SndState := S_StartSound dupS1 1 2 (some shotSfx) (0, 0, 0) 1 1 0 false true 0

/-- A frame whose trigger record is already full (16 entries). -/
def fullFrameState : SndState :=
  { stSys with sfxThisFrame := List.replicate 16 "boom" }

/-- A state with ambient channel 0 playing at full volume. -/
def ambState : SndState :=
  { stSys with ambients := fun i => if i = 0 then some 1 else none }

/-- The startup outcome where every step succeeds except FMOD_System_Init. -/
def failInitResults : StartupResults :=
  { createOk := true
    versionOk := true
    versionGE := true
    channelsOk := true
    initOk := false
    driverOk := true
    driverInfoOk := true
    groupOk := true
    samplerate := 48000 }

/-- The state after that failed startup. -/
def failInitState : SndState := S_Startup failInitResults initState

/-! ## Projection lemmas for the state and voice helpers -/

@[simp] lemma setPaused_startClock (v : Voice) (p : Bool) :
    (FMOD_Channel_SetPaused v p).startClock = v.startClock := rfl

@[simp] lemma setDelay_startClock (v : Voice) (c : Nat) :
    (FMOD_Channel_SetDelay v c).startClock = c := rfl

@[simp] lemma setPriority_startClock (v : Voice) (p : Nat) :
    (FMOD_Channel_SetPriority v p).startClock = v.startClock := rfl

@[simp] lemma set3DLevel_startClock (v : Voice) (l : ℚ) :
    (FMOD_Channel_Set3DLevel v l).startClock = v.startClock := rfl

@[simp] lemma setUserData_startClock (v : Voice) (id : SlotId) :
    (FMOD_Channel_SetUserData v id).startClock = v.startClock := rfl

@[simp] lemma channelAttributes_startClock (v : Voice) (sfx : Sfx) (origin : V3) (vol : ℚ) :
    (SND_FMOD_SetChannelAttributes v sfx origin vol).startClock = v.startClock := by
  rw [SND_FMOD_SetChannelAttributes]
  split_ifs <;> rfl

@[simp] lemma freshVoice_startClock (sfx : Sfx) (c : Nat) :
    (freshVoice sfx c).startClock = c := rfl

@[simp] lemma logMsg_sfxThisFrame (s : SndState) (m : String) :
    (logMsg s m).sfxThisFrame = s.sfxThisFrame := rfl

@[simp] lemma logMsg_voices (s : SndState) (m : String) :
    (logMsg s m).voices = s.voices := rfl

@[simp] lemma commitVoice_voices_self (s : SndState) (vid : Nat) (v : Voice) :
    (commitVoice s vid v).voices vid = some v := by
  simp [commitVoice]

lemma commitVoice_voices_ne (s : SndState) (vid m : Nat) (v : Voice) (h : ¬ m = vid) :
    (commitVoice s vid v).voices m = s.voices m := by
  simp [commitVoice, h]

@[simp] lemma commitVoice_sfxThisFrame (s : SndState) (vid : Nat) (v : Voice) :
    (commitVoice s vid v).sfxThisFrame = s.sfxThisFrame := rfl

@[simp] lemma commitVoice_entsounds (s : SndState) (vid : Nat) (v : Voice) :
    (commitVoice s vid v).entsounds = s.entsounds := rfl

@[simp] lemma getSlot_commitVoice (s : SndState) (vid : Nat) (v : Voice) (id : SlotId) :
    getSlot (commitVoice s vid v) id = getSlot s id := by
  cases id <;> rfl

@[simp] lemma recordSfx_voices (s : SndState) (n : String) :
    (recordSfxThisFrame s n).voices = s.voices := by
  rw [recordSfxThisFrame]
  split_ifs <;> rfl

@[simp] lemma recordSfx_entsounds (s : SndState) (n : String) :
    (recordSfxThisFrame s n).entsounds = s.entsounds := by
  rw [recordSfxThisFrame]
  split_ifs <;> rfl

@[simp] lemma getSlot_recordSfx (s : SndState) (n : String) (id : SlotId) :
    getSlot (recordSfxThisFrame s n) id = getSlot s id := by
  cases id <;> rw [recordSfxThisFrame] <;> split_ifs <;> rfl

lemma recordSfx_sfxThisFrame (s : SndState) (n : String) :
    (recordSfxThisFrame s n).sfxThisFrame =
      if s.sfxThisFrame.length < 16 then s.sfxThisFrame ++ [n] else s.sfxThisFrame := by
  rw [recordSfxThisFrame]
  split_ifs <;> rfl

/-- Reading back the slot just stored. -/
lemma getSlot_setSlot (s : SndState) (id : SlotId) (sl : SoundSlot) :
    getSlot (setSlot s id sl) id = some sl := by
  cases id <;> simp [getSlot, setSlot]

@[simp] lemma setSlot_nextVoice (s : SndState) (id : SlotId) (sl : SoundSlot) :
    (setSlot s id sl).nextVoice = s.nextVoice := by cases id <;> rfl

@[simp] lemma setSlot_dspclock (s : SndState) (id : SlotId) (sl : SoundSlot) :
    (setSlot s id sl).dspclock = s.dspclock := by cases id <;> rfl

@[simp] lemma setSlot_samplerate (s : SndState) (id : SlotId) (sl : SoundSlot) :
    (setSlot s id sl).samplerate = s.samplerate := by cases id <;> rfl

@[simp] lemma setSlot_sfxThisFrame (s : SndState) (id : SlotId) (sl : SoundSlot) :
    (setSlot s id sl).sfxThisFrame = s.sfxThisFrame := by cases id <;> rfl

@[simp] lemma setSlot_voices (s : SndState) (id : SlotId) (sl : SoundSlot) :
    (setSlot s id sl).voices = s.voices := by cases id <;> rfl

@[simp] lemma setSlot_fmodSystem (s : SndState) (id : SlotId) (sl : SoundSlot) :
    (setSlot s id sl).fmodSystem = s.fmodSystem := by cases id <;> rfl

@[simp] lemma retireVoice_entsounds (s : SndState) (v : Nat) :
    (retireVoice s v).entsounds = s.entsounds := rfl

@[simp] lemma retireVoice_anonSlots (s : SndState) (v : Nat) :
    (retireVoice s v).anonSlots = s.anonSlots := rfl

@[simp] lemma retireVoice_nextVoice (s : SndState) (v : Nat) :
    (retireVoice s v).nextVoice = s.nextVoice := rfl

@[simp] lemma retireVoice_dspclock (s : SndState) (v : Nat) :
    (retireVoice s v).dspclock = s.dspclock := rfl

@[simp] lemma retireVoice_samplerate (s : SndState) (v : Nat) :
    (retireVoice s v).samplerate = s.samplerate := rfl

@[simp] lemma retireVoice_sfxThisFrame (s : SndState) (v : Nat) :
    (retireVoice s v).sfxThisFrame = s.sfxThisFrame := rfl

@[simp] lemma retireVoice_fmodSystem (s : SndState) (v : Nat) :
    (retireVoice s v).fmodSystem = s.fmodSystem := rfl

@[simp] lemma zmalloc_nextVoice (s : SndState) : (Z_MallocSlot s).1.nextVoice = s.nextVoice :=
  rfl

@[simp] lemma zmalloc_dspclock (s : SndState) : (Z_MallocSlot s).1.dspclock = s.dspclock :=
  rfl

@[simp] lemma zmalloc_samplerate (s : SndState) :
    (Z_MallocSlot s).1.samplerate = s.samplerate := rfl

@[simp] lemma zmalloc_sfxThisFrame (s : SndState) :
    (Z_MallocSlot s).1.sfxThisFrame = s.sfxThisFrame := rfl

@[simp] lemma zmalloc_voices (s : SndState) : (Z_MallocSlot s).1.voices = s.voices := rfl

@[simp] lemma zmalloc_snd (s : SndState) : (Z_MallocSlot s).2 = SlotId.anon s.nextAnon := rfl

@[simp] lemma zmalloc_nextAnon (s : SndState) :
    (Z_MallocSlot s).1.nextAnon = s.nextAnon + 1 := rfl

@[simp] lemma zmalloc_lookup (s : SndState) :
    getSlot (Z_MallocSlot s).1 (SlotId.anon s.nextAnon) =
      some { zone := true, channel := none, dist_mult := 0 } := by
  simp [Z_MallocSlot, getSlot]

/-! ## Helper lemmas about SND_PickSoundSlot and the start functions -/

lemma pick_preserves (s : SndState) (en ch : Int) :
    (SND_PickSoundSlot s en ch).1.nextVoice = s.nextVoice ∧
    (SND_PickSoundSlot s en ch).1.dspclock = s.dspclock ∧
    (SND_PickSoundSlot s en ch).1.samplerate = s.samplerate ∧
    (SND_PickSoundSlot s en ch).1.sfxThisFrame = s.sfxThisFrame := by
  unfold SND_PickSoundSlot
  split_ifs
  · exact ⟨rfl, rfl, rfl, rfl⟩
  all_goals dsimp only
  all_goals split <;> simp

@[simp] lemma pick_nextVoice (s : SndState) (en ch : Int) :
    (SND_PickSoundSlot s en ch).1.nextVoice = s.nextVoice := (pick_preserves s en ch).1

@[simp] lemma pick_dspclock (s : SndState) (en ch : Int) :
    (SND_PickSoundSlot s en ch).1.dspclock = s.dspclock := (pick_preserves s en ch).2.1

@[simp] lemma pick_samplerate (s : SndState) (en ch : Int) :
    (SND_PickSoundSlot s en ch).1.samplerate = s.samplerate := (pick_preserves s en ch).2.2.1

@[simp] lemma pick_sfxThisFrame (s : SndState) (en ch : Int) :
    (SND_PickSoundSlot s en ch).1.sfxThisFrame = s.sfxThisFrame :=
  (pick_preserves s en ch).2.2.2

/-- Retiring a voice schedules its fade to zero at dspclock + 64 and
disables its looping. -/
lemma retireVoice_at (s : SndState) (v : Nat) :
    (retireVoice s v).voices v = (s.voices v).map fun w =>
      { w with fadeRamp := some (s.dspclock + 64, 0), loopMode := false } := by
  simp [retireVoice, FMOD_Channel_SetMode, FMOD_Channel_SetFadePointRamp]

/-- The new voice created by a successful S_StartSound is scheduled at the
current DSP clock, plus the randomized delay exactly when an identical
asset was already started this frame. -/
lemma startSound_new_voice_clock (s : SndState) (en ch : Int) (sfx : Sfx) (origin : V3)
    (fvol att : ℚ) (ve : Int) (randVal : Nat)
    (hsys : s.fmodSystem = true) (hld : sfx.loaded = true) :
    ((S_StartSound s en ch (some sfx) origin fvol att ve false true randVal).voices
        s.nextVoice).map Voice.startClock =
      some (if sfx.name ∈ s.sfxThisFrame
            then s.dspclock + SND_GetDelay sfx 100 randVal s.samplerate
            else s.dspclock) := by
  simp only [S_StartSound, hsys, hld, Bool.true_eq_false, if_false, if_true,
    Bool.false_eq_true, setSlot_sfxThisFrame, pick_sfxThisFrame, setSlot_nextVoice,
    pick_nextVoice, setSlot_dspclock, pick_dspclock, setSlot_samplerate, pick_samplerate,
    commitVoice_voices_self, Option.map_some]
  by_cases hdup : sfx.name ∈ s.sfxThisFrame <;>
    simp [hdup, apply_ite Voice.startClock]

/-- Voices other than the new one are untouched by S_StartSound after the
slot pick. -/
lemma startSound_old_voices (s : SndState) (en ch : Int) (sfx : Sfx) (origin : V3)
    (fvol att : ℚ) (ve : Int) (randVal : Nat) (m : Nat)
    (hsys : s.fmodSystem = true) (hld : sfx.loaded = true) (hm : ¬ m = s.nextVoice) :
    (S_StartSound s en ch (some sfx) origin fvol att ve false true randVal).voices m =
      (SND_PickSoundSlot s en ch).1.voices m := by
  simp only [S_StartSound, hsys, hld, Bool.true_eq_false, if_false, if_true,
    Bool.false_eq_true, setSlot_nextVoice, pick_nextVoice]
  rw [commitVoice_voices_ne _ _ _ _ hm]
  simp

/-- The slot chosen by S_StartSound ends up referencing the new voice and
carrying dist_mult = attenuation / sound_nominal_clip_dist. -/
lemma startSound_slot_value (s : SndState) (en ch : Int) (sfx : Sfx) (origin : V3)
    (fvol att : ℚ) (ve : Int) (randVal : Nat)
    (hsys : s.fmodSystem = true) (hld : sfx.loaded = true) :
    getSlot (S_StartSound s en ch (some sfx) origin fvol att ve false true randVal)
        (SND_PickSoundSlot s en ch).2 =
      some { (getSlot (SND_PickSoundSlot s en ch).1
                (SND_PickSoundSlot s en ch).2).getD default with
             channel := some s.nextVoice
             dist_mult := att / sound_nominal_clip_dist } := by
  simp only [S_StartSound, hsys, hld, Bool.true_eq_false, if_false, if_true,
    Bool.false_eq_true, setSlot_nextVoice, pick_nextVoice, getSlot_commitVoice,
    getSlot_recordSfx, getSlot_setSlot]

/-- The slot chosen by S_StaticSound ends up referencing the new voice and
carrying dist_mult = (attenuation / 64) / sound_nominal_clip_dist. -/
lemma staticSound_slot_value (s : SndState) (sfx : Sfx) (origin : V3) (vol att : ℚ)
    (randVal : Nat) (hsys : s.fmodSystem = true) (hld : sfx.loaded = true)
    (hloop : 0 ≤ sfx.loopstart) :
    getSlot (S_StaticSound s (some sfx) origin vol att true randVal)
        (SND_PickSoundSlot s (-1) (-1)).2 =
      some { (getSlot (SND_PickSoundSlot s (-1) (-1)).1
                (SND_PickSoundSlot s (-1) (-1)).2).getD default with
             channel := some s.nextVoice
             dist_mult := (att / 64) / sound_nominal_clip_dist } := by
  simp only [S_StaticSound, hsys, hld, Bool.true_eq_false, if_false, if_true,
    Bool.false_eq_true, not_lt.mpr hloop, getSlot_commitVoice, getSlot_setSlot]

/-- All the ways S_StartSound can leave the per-frame trigger record. -/
lemma startSound_sfxThisFrame_cases (s : SndState) (en ch : Int) (sfxOpt : Option Sfx)
    (origin : V3) (fvol att : ℚ) (ve : Int) (ns pk : Bool) (rv : Nat) :
    (S_StartSound s en ch sfxOpt origin fvol att ve ns pk rv).sfxThisFrame =
      s.sfxThisFrame ∨
    (s.sfxThisFrame.length < 16 ∧ ∃ nm,
      (S_StartSound s en ch sfxOpt origin fvol att ve ns pk rv).sfxThisFrame =
        s.sfxThisFrame ++ [nm]) := by
  cases sfxOpt with
  | none => exact Or.inl rfl
  | some sfx =>
      simp only [S_StartSound, apply_ite SndState.sfxThisFrame, commitVoice_sfxThisFrame,
        recordSfx_sfxThisFrame, setSlot_sfxThisFrame, pick_sfxThisFrame, logMsg_sfxThisFrame]
      split_ifs with h1 h2 h3 h4 h5
      · exact Or.inl rfl
      · exact Or.inl rfl
      · exact Or.inl rfl
      · exact Or.inl rfl
      · exact Or.inr ⟨h5, sfx.name, rfl⟩
      · exact Or.inl rfl

/-! ## Theorems about the claims -/

/-- C2: for a channel whose attached user data is a slot, the attenuation
callback returns exactly max(0, 1 - distance * dist_mult), and on the
callback's domain (distances are non-negative, and slots are created with
non-negative attenuation parameters, hence non-negative dist_mult) the
returned gain lies in [0,1]. -/
theorem attenuation_formula_and_range (soundslot : SoundSlot) (d : ℚ)
    (hd : 0 ≤ d) (hm : 0 ≤ soundslot.dist_mult) :
    SND_FMOD_Attenuation (some soundslot) d = max 0 (1 - d * soundslot.dist_mult) ∧
    0 ≤ SND_FMOD_Attenuation (some soundslot) d ∧
    SND_FMOD_Attenuation (some soundslot) d ≤ 1 := by
  have hprod : 0 ≤ d * soundslot.dist_mult := mul_nonneg hd hm
  simp only [SND_FMOD_Attenuation]
  split_ifs with h
  · exact ⟨(max_eq_left (le_of_lt h)).symm, le_refl 0, by norm_num⟩
  · push_neg at h
    exact ⟨(max_eq_right h).symm, h, by linarith⟩

/-- Witness for C2 at distance 500 and dist_mult 1/1000. -/
theorem attenuation_formula_and_range_witness :
    SND_FMOD_Attenuation (some { zone := false, channel := none, dist_mult := 1 / 1000 }) 500 =
      max 0 (1 - 500 * (1 / 1000)) ∧
    0 ≤ SND_FMOD_Attenuation (some { zone := false, channel := none, dist_mult := 1 / 1000 }) 500 ∧
    SND_FMOD_Attenuation (some { zone := false, channel := none, dist_mult := 1 / 1000 }) 500 ≤ 1 :=
  attenuation_formula_and_range { zone := false, channel := none, dist_mult := 1 / 1000 } 500
    (by norm_num) (by norm_num)

/-- C9: for every slot with a non-negative distance multiplier, the
attenuation gain is monotonically non-increasing in distance. -/
theorem attenuation_monotone (soundslot : SoundSlot) (d1 d2 : ℚ)
    (hm : 0 ≤ soundslot.dist_mult) (h12 : d1 < d2) :
    SND_FMOD_Attenuation (some soundslot) d2 ≤ SND_FMOD_Attenuation (some soundslot) d1 := by
  have hmul : d1 * soundslot.dist_mult ≤ d2 * soundslot.dist_mult :=
    mul_le_mul_of_nonneg_right (le_of_lt h12) hm
  simp only [SND_FMOD_Attenuation]
  split_ifs with h1 h2 <;> linarith

/-- Witness for C9 at distances 100 < 900 and dist_mult 1/1000. -/
theorem attenuation_monotone_witness :
    SND_FMOD_Attenuation (some { zone := false, channel := none, dist_mult := 1 / 1000 }) 900 ≤
      SND_FMOD_Attenuation (some { zone := false, channel := none, dist_mult := 1 / 1000 }) 100 :=
  attenuation_monotone { zone := false, channel := none, dist_mult := 1 / 1000 } 100 900
    (by norm_num) (by norm_num)

/-- C6: SND_PickSoundSlot returns a fresh zone-allocated anonymous slot
(zeroed, marked for release-on-end) exactly when the entity id is outside
0..MAX_CHANNELS-1 or the channel is zero or above 7; otherwise a negative
channel normalizes to 0 and the tracked slot at that grid position is
returned with its zone flag cleared; in every case a usable slot is
returned. -/
theorem pickSoundSlot_classification (s : SndState) (en ch : Int) :
    (if en < 0 ∨ MAX_CHANNELS ≤ en ∨ ch = 0 ∨ 7 < ch then
        (SND_PickSoundSlot s en ch).2 = SlotId.anon s.nextAnon ∧
        getSlot (SND_PickSoundSlot s en ch).1 (SND_PickSoundSlot s en ch).2 =
          some { zone := true, channel := none, dist_mult := 0 } ∧
        (SND_PickSoundSlot s en ch).1.nextAnon = s.nextAnon + 1
      else
        (SND_PickSoundSlot s en ch).2 =
          SlotId.tracked en.toNat (if ch < 0 then 0 else ch.toNat) ∧
        (getSlot (SND_PickSoundSlot s en ch).1 (SND_PickSoundSlot s en ch).2).map
          SoundSlot.zone = some false) ∧
    (getSlot (SND_PickSoundSlot s en ch).1 (SND_PickSoundSlot s en ch).2).isSome = true := by
  by_cases hc : en < 0 ∨ MAX_CHANNELS ≤ en ∨ ch = 0 ∨ 7 < ch
  · simp [SND_PickSoundSlot, hc]
  · rw [if_neg hc]
    cases hch : (s.entsounds en.toNat (if ch < 0 then 0 else ch.toNat)).channel with
    | none =>
        simp only [SND_PickSoundSlot, hc, if_false, hch]
        simp [getSlot, setSlot]
    | some v =>
        simp only [SND_PickSoundSlot, hc, if_false, hch]
        simp [getSlot, setSlot]

/-- C7: a static sound whose asset is loaded but carries no loop-start
marker is rejected: the only state change is the diagnostic log line, so
no voice is created and no slot or other subsystem state is modified. -/
theorem staticSound_not_looped_rejected (s : SndState) (sfx : Sfx) (origin : V3)
    (vol att : ℚ) (playOk : Bool) (randVal : Nat)
    (hsys : s.fmodSystem = true) (hld : sfx.loaded = true) (hloop : sfx.loopstart < 0) :
    S_StaticSound s (some sfx) origin vol att playOk randVal =
      { s with log := s.log ++ ["Sound " ++ sfx.name ++ " not looped"] } := by
  simp [S_StaticSound, logMsg, hsys, hld, hloop]

/-- Witness for C7: a loaded, non-looped asset on a started system. -/
theorem staticSound_not_looped_rejected_witness :
    S_StaticSound { initState with fmodSystem := true }
        (some { name := "thunder", loaded := true, loopstart := -1, loopend := -1,
                length := 1000 })
        (0, 0, 0) 255 64 true 0 =
      { { initState with fmodSystem := true } with
          log := { initState with fmodSystem := true }.log ++ ["Sound thunder not looped"] } :=
  staticSound_not_looped_rejected { initState with fmodSystem := true }
    { name := "thunder", loaded := true, loopstart := -1, loopend := -1, length := 1000 }
    (0, 0, 0) 255 64 true 0 rfl rfl (by norm_num)

/-- Picking a tracked slot returns the grid position (after normalizing the
channel) and always clears the slot's channel reference. -/
lemma pick_tracked_clears (s : SndState) (en ch : Int)
    (hc : ¬(en < 0 ∨ MAX_CHANNELS ≤ en ∨ ch = 0 ∨ 7 < ch)) (hch0 : ¬ ch < 0) :
    (SND_PickSoundSlot s en ch).2 = SlotId.tracked en.toNat ch.toNat ∧
    ((SND_PickSoundSlot s en ch).1.entsounds en.toNat ch.toNat).channel = none := by
  simp only [SND_PickSoundSlot, hc, if_false, if_neg hch0]
  cases hch : (s.entsounds en.toNat ch.toNat).channel with
  | none => simp [setSlot, hch]
  | some v => simp [setSlot, hch]

/-- Picking an occupied tracked slot retires the old voice and changes no
other voice. -/
lemma pick_tracked_voices_occupied (s : SndState) (en ch : Int) (old : Nat)
    (hc : ¬(en < 0 ∨ MAX_CHANNELS ≤ en ∨ ch = 0 ∨ 7 < ch)) (hch0 : ¬ ch < 0)
    (hocc : (s.entsounds en.toNat ch.toNat).channel = some old) :
    (SND_PickSoundSlot s en ch).1.voices = (retireVoice s old).voices := by
  simp only [SND_PickSoundSlot, hc, if_false, if_neg hch0, hocc]
  simp [setSlot]

/-- C1: starting a sound on a tracked (entity, channel) slot retires the
previous occupant already when the slot is picked, before the replacement
voice exists: the old voice's fade to volume 0 at dspclock + 64 is
scheduled, its looping is disabled, and the slot's channel reference is
cleared; after the start completes the slot references exactly the newly
started voice. -/
theorem startSound_tracked_slot_exclusive (s : SndState) (en ch : Int) (sfx : Sfx)
    (origin : V3) (fvol att : ℚ) (ve : Int) (randVal : Nat)
    (hsys : s.fmodSystem = true) (hld : sfx.loaded = true)
    (hen0 : 0 ≤ en) (hen1 : en < MAX_CHANNELS) (hch1 : 1 ≤ ch) (hch7 : ch ≤ 7)
    (hwf : ∀ v, (s.entsounds en.toNat ch.toNat).channel = some v → v < s.nextVoice) :
    ((S_StartSound s en ch (some sfx) origin fvol att ve false true randVal).entsounds
        en.toNat ch.toNat).channel = some s.nextVoice ∧
    ((SND_PickSoundSlot s en ch).1.entsounds en.toNat ch.toNat).channel = none ∧
    (∀ old, (s.entsounds en.toNat ch.toNat).channel = some old →
      (S_StartSound s en ch (some sfx) origin fvol att ve false true randVal).voices old =
        (s.voices old).map fun w =>
          { w with fadeRamp := some (s.dspclock + 64, 0), loopMode := false }) := by
  have hc : ¬(en < 0 ∨ MAX_CHANNELS ≤ en ∨ ch = 0 ∨ 7 < ch) := by
    push_neg
    exact ⟨hen0, hen1, by omega, by omega⟩
  have hch0 : ¬ ch < 0 := by omega
  obtain ⟨hid, hclear⟩ := pick_tracked_clears s en ch hc hch0
  refine ⟨?_, hclear, ?_⟩
  · have hv := startSound_slot_value s en ch sfx origin fvol att ve randVal hsys hld
    rw [hid] at hv
    simp only [getSlot] at hv
    rw [Option.some.inj hv]
  · intro old hold
    rw [startSound_old_voices s en ch sfx origin fvol att ve randVal old hsys hld
        (Nat.ne_of_lt (hwf old hold))]
    rw [pick_tracked_voices_occupied s en ch old hc hch0 hold]
    exact retireVoice_at s old

/-- Witness for C1: entity 5 channel 1 occupied by voice 0 is retired and
replaced by voice 1. -/
theorem startSound_tracked_slot_exclusive_witness :
    ((S_StartSound occState 5 1 (some shotSfx) (0, 0, 0) 1 1 0 false true 0).entsounds
        (Int.toNat 5) (Int.toNat 1)).channel = some occState.nextVoice ∧
    ((SND_PickSoundSlot occState 5 1).1.entsounds (Int.toNat 5) (Int.toNat 1)).channel =
      none ∧
    (∀ old, (occState.entsounds (Int.toNat 5) (Int.toNat 1)).channel = some old →
      (S_StartSound occState 5 1 (some shotSfx) (0, 0, 0) 1 1 0 false true 0).voices old =
        (occState.voices old).map fun w =>
          { w with fadeRamp := some (occState.dspclock + 64, 0), loopMode := false }) :=
  startSound_tracked_slot_exclusive occState 5 1 shotSfx (0, 0, 0) 1 1 0 0
    rfl rfl (by decide) (by decide) (by decide) (by decide)
    (fun v hv => by
      have h0 : (0 : Nat) = v := Option.some.inj hv
      show v < 1
      omega)

/-- C3 counterexample: S_StaticSound called with attenuation parameter 64
stores dist_mult (64/64)/1000 = 1/1000 in the slot it creates, which is
not 64 / sound_nominal_clip_dist. -/
theorem staticSound_dist_mult_counterexample :
    ((getSlot (S_StaticSound stSys (some loopedSfx) (0, 0, 0) 255 64 true 0)
        (SND_PickSoundSlot stSys (-1) (-1)).2).map SoundSlot.dist_mult) =
      some ((64 / 64) / sound_nominal_clip_dist) ∧
    ¬ ((64 : ℚ) / 64 / sound_nominal_clip_dist = 64 / sound_nominal_clip_dist) := by
  constructor
  · rw [staticSound_slot_value stSys loopedSfx (0, 0, 0) 255 64 0 rfl rfl (by decide)]
    rfl
  · norm_num [sound_nominal_clip_dist]

/-- C3 (amended): dist_mult is written once, when the voice is started:
S_StartSound stores attenuation / sound_nominal_clip_dist, while
S_StaticSound first normalizes its 0-255-range attenuation parameter by
64 and stores (attenuation / 64) / sound_nominal_clip_dist. -/
theorem dist_mult_set_at_start (s : SndState) (en ch : Int) (sfx1 sfx2 : Sfx)
    (origin1 origin2 : V3) (fvol vol att1 att2 : ℚ) (ve : Int) (rv1 rv2 : Nat)
    (hsys : s.fmodSystem = true) (hld1 : sfx1.loaded = true) (hld2 : sfx2.loaded = true)
    (hloop2 : 0 ≤ sfx2.loopstart) :
    ((getSlot (S_StartSound s en ch (some sfx1) origin1 fvol att1 ve false true rv1)
        (SND_PickSoundSlot s en ch).2).map SoundSlot.dist_mult) =
      some (att1 / sound_nominal_clip_dist) ∧
    ((getSlot (S_StaticSound s (some sfx2) origin2 vol att2 true rv2)
        (SND_PickSoundSlot s (-1) (-1)).2).map SoundSlot.dist_mult) =
      some ((att2 / 64) / sound_nominal_clip_dist) := by
  constructor
  · rw [startSound_slot_value s en ch sfx1 origin1 fvol att1 ve rv1 hsys hld1]
    rfl
  · rw [staticSound_slot_value s sfx2 origin2 vol att2 rv2 hsys hld2 hloop2]
    rfl

/-- Witness for C3 (amended) with attenuation 1 for the entity sound and
attenuation 64 for the static sound. -/
theorem dist_mult_set_at_start_witness :
    ((getSlot (S_StartSound stSys 5 1 (some shotSfx) (0, 0, 0) 1 1 0 false true 0)
        (SND_PickSoundSlot stSys 5 1).2).map SoundSlot.dist_mult) =
      some (1 / sound_nominal_clip_dist) ∧
    ((getSlot (S_StaticSound stSys (some loopedSfx) (0, 0, 0) 255 64 true 0)
        (SND_PickSoundSlot stSys (-1) (-1)).2).map SoundSlot.dist_mult) =
      some ((64 / 64) / sound_nominal_clip_dist) :=
  dist_mult_set_at_start stSys 5 1 shotSfx loopedSfx (0, 0, 0) (0, 0, 0) 1 255 1 64 0 0 0
    rfl rfl rfl (by decide)

lemma update_fmodSystem (s : SndState) (o f u : V3) (leaf : Option (Nat → Nat))
    (al af ft : ℚ) : (S_Update s o f u leaf al af ft).fmodSystem = s.fmodSystem := by
  simp only [S_Update]
  split_ifs <;> rfl

lemma update_clears_sfxThisFrame (s : SndState) (o f u : V3) (leaf : Option (Nat → Nat))
    (al af ft : ℚ) (hsys : s.fmodSystem = true) :
    (S_Update s o f u leaf al af ft).sfxThisFrame = [] := by
  simp [S_Update, hsys]

/-- C4 (amended): a sound identical to one already recorded this frame is
scheduled at the current DSP clock plus the randomized SND_GetDelay
offset — at least as late as, but not necessarily strictly later than, a
voice started at the current clock, since rand() may make the offset 0 —
while a non-duplicate is scheduled at the current clock with no delay;
S_Update clears the per-frame record, so an identical asset started in
the next frame receives no delay. -/
theorem duplicate_delay_and_frame_reset (s : SndState) (en ch : Int) (sfx : Sfx)
    (origin : V3) (fvol att : ℚ) (ve : Int) (randVal : Nat)
    (hsys : s.fmodSystem = true) (hld : sfx.loaded = true) :
    (sfx.name ∈ s.sfxThisFrame →
      ((S_StartSound s en ch (some sfx) origin fvol att ve false true randVal).voices
          s.nextVoice).map Voice.startClock =
        some (s.dspclock + SND_GetDelay sfx 100 randVal s.samplerate)) ∧
    (sfx.name ∉ s.sfxThisFrame →
      ((S_StartSound s en ch (some sfx) origin fvol att ve false true randVal).voices
          s.nextVoice).map Voice.startClock = some s.dspclock) ∧
    (∀ o f u leaf al af ft, (S_Update s o f u leaf al af ft).sfxThisFrame = []) ∧
    (∀ o f u leaf (al af ft : ℚ) (en2 ch2 : Int) (origin2 : V3) (fvol2 att2 : ℚ)
        (ve2 : Int) (rv2 : Nat),
      ((S_StartSound (S_Update s o f u leaf al af ft) en2 ch2 (some sfx) origin2 fvol2
          att2 ve2 false true rv2).voices
          (S_Update s o f u leaf al af ft).nextVoice).map Voice.startClock =
        some (S_Update s o f u leaf al af ft).dspclock) := by
  refine ⟨?_, ?_, ?_, ?_⟩
  · intro hdup
    rw [startSound_new_voice_clock s en ch sfx origin fvol att ve randVal hsys hld,
      if_pos hdup]
  · intro hdup
    rw [startSound_new_voice_clock s en ch sfx origin fvol att ve randVal hsys hld,
      if_neg hdup]
  · intro o f u leaf al af ft
    exact update_clears_sfxThisFrame s o f u leaf al af ft hsys
  · intro o f u leaf al af ft en2 ch2 origin2 fvol2 att2 ve2 rv2
    rw [startSound_new_voice_clock _ en2 ch2 sfx origin2 fvol2 att2 ve2 rv2
        (by rw [update_fmodSystem]; exact hsys) hld]
    rw [update_clears_sfxThisFrame s o f u leaf al af ft hsys]
    simp

/-- Witness for C4 (amended): one start in a frame with shotSfx recorded,
one in a clean frame, and the frame clear itself. -/
theorem duplicate_delay_and_frame_reset_witness :
    (shotSfx.name ∈ dupS1.sfxThisFrame →
      ((S_StartSound dupS1 1 2 (some shotSfx) (0, 0, 0) 1 1 0 false true 0).voices
          dupS1.nextVoice).map Voice.startClock =
        some (dupS1.dspclock + SND_GetDelay shotSfx 100 0 dupS1.samplerate)) ∧
    shotSfx.name ∈ dupS1.sfxThisFrame ∧
    (∀ o f u leaf al af ft, (S_Update dupS1 o f u leaf al af ft).sfxThisFrame = []) :=
  ⟨(duplicate_delay_and_frame_reset dupS1 1 2 shotSfx (0, 0, 0) 1 1 0 0 rfl rfl).1,
   by decide,
   (duplicate_delay_and_frame_reset dupS1 1 2 shotSfx (0, 0, 0) 1 1 0 0 rfl rfl).2.2.1⟩

/-- C4 counterexample: with rand() returning 0 the duplicate offset is
0 % 100 = 0 samples, so the second identical sound of the frame is
scheduled at DSP clock 0, exactly like the first voice — not strictly
later. -/
theorem duplicate_delay_not_strict_counterexample :
    (dupS1.voices 0).map Voice.startClock = some 0 ∧
    (dupS2.voices 1).map Voice.startClock = some 0 ∧
    ¬ ((0 : Nat) > 0) := by
  refine ⟨by decide, by decide, by decide⟩

/-- C10: the per-frame trigger record is bounded at 16 entries:
S_StartSound never grows it past 16 and leaves it unchanged once it is
full, S_Update keeps it within bounds (it empties it), and a started
sound whose asset is not among the recorded names — such as one
identical to a sound that went unrecorded because the record was already
full — is not detected as a duplicate and receives no start delay. -/
theorem sfxThisFrame_bounded :
    (∀ (s : SndState) (en ch : Int) (sfxOpt : Option Sfx) (origin : V3) (fvol att : ℚ)
        (ve : Int) (ns pk : Bool) (rv : Nat),
      s.sfxThisFrame.length ≤ 16 →
      (S_StartSound s en ch sfxOpt origin fvol att ve ns pk rv).sfxThisFrame.length ≤ 16) ∧
    (∀ (s : SndState) (o f u : V3) (leaf : Option (Nat → Nat)) (al af ft : ℚ),
      s.sfxThisFrame.length ≤ 16 →
      (S_Update s o f u leaf al af ft).sfxThisFrame.length ≤ 16) ∧
    (∀ (s : SndState) (en ch : Int) (sfxOpt : Option Sfx) (origin : V3) (fvol att : ℚ)
        (ve : Int) (ns pk : Bool) (rv : Nat),
      s.sfxThisFrame.length = 16 →
      (S_StartSound s en ch sfxOpt origin fvol att ve ns pk rv).sfxThisFrame =
        s.sfxThisFrame) ∧
    (∀ (s : SndState) (en ch : Int) (sfx : Sfx) (origin : V3) (fvol att : ℚ)
        (ve : Int) (rv : Nat),
      s.fmodSystem = true → sfx.loaded = true → sfx.name ∉ s.sfxThisFrame →
      ((S_StartSound s en ch (some sfx) origin fvol att ve false true rv).voices
          s.nextVoice).map Voice.startClock = some s.dspclock) := by
  refine ⟨?_, ?_, ?_, ?_⟩
  · intro s en ch sfxOpt origin fvol att ve ns pk rv hlen
    rcases startSound_sfxThisFrame_cases s en ch sfxOpt origin fvol att ve ns pk rv with
      h | ⟨hlt, nm, h⟩
    · rw [h]
      exact hlen
    · rw [h]
      simp only [List.length_append, List.length_cons, List.length_nil]
      omega
  · intro s o f u leaf al af ft hlen
    by_cases hsys : s.fmodSystem = true
    · rw [update_clears_sfxThisFrame s o f u leaf al af ft hsys]
      simp
    · simp only [Bool.not_eq_true] at hsys
      simpa [S_Update, hsys] using hlen
  · intro s en ch sfxOpt origin fvol att ve ns pk rv hlen
    rcases startSound_sfxThisFrame_cases s en ch sfxOpt origin fvol att ve ns pk rv with
      h | ⟨hlt, nm, h⟩
    · exact h
    · omega
  · intro s en ch sfx origin fvol att ve rv hsys hld hmem
    rw [startSound_new_voice_clock s en ch sfx origin fvol att ve rv hsys hld,
      if_neg hmem]

/-- Witness for C10 on a frame whose record is already full. -/
theorem sfxThisFrame_bounded_witness :
    (S_StartSound fullFrameState 1 1 (some shotSfx) (0, 0, 0) 1 1 0 false true
        0).sfxThisFrame.length ≤ 16 ∧
    (S_Update fullFrameState (0, 0, 0) (0, 0, 0) (0, 0, 0) none 1 1
        1).sfxThisFrame.length ≤ 16 ∧
    (S_StartSound fullFrameState 1 1 (some shotSfx) (0, 0, 0) 1 1 0 false true
        0).sfxThisFrame = fullFrameState.sfxThisFrame ∧
    ((S_StartSound fullFrameState 1 1 (some shotSfx) (0, 0, 0) 1 1 0 false true 0).voices
        fullFrameState.nextVoice).map Voice.startClock = some fullFrameState.dspclock :=
  ⟨sfxThisFrame_bounded.1 fullFrameState 1 1 (some shotSfx) (0, 0, 0) 1 1 0 false true 0
      (by decide),
   sfxThisFrame_bounded.2.1 fullFrameState (0, 0, 0) (0, 0, 0) (0, 0, 0) none 1 1 1
      (by decide),
   sfxThisFrame_bounded.2.2.1 fullFrameState 1 1 (some shotSfx) (0, 0, 0) 1 1 0 false true 0
      (by decide),
   sfxThisFrame_bounded.2.2.2 fullFrameState 1 1 shotSfx (0, 0, 0) 1 1 0 0 rfl rfl
      (by decide)⟩

lemma ambientTarget_nonneg (al : ℚ) (lvl : Nat) : 0 ≤ ambientTarget al lvl := by
  simp only [ambientTarget]
  split_ifs with h
  · exact le_refl 0
  · push_neg at h
    linarith

/-- The ambient per-channel update written as plain conditionals on the
target and the per-frame rate. -/
lemma ambient_step_eq (lvls : Nat → Nat) (i : Nat) (al af ft cv : ℚ) (hal : al ≠ 0) :
    S_UpdateAmbientChannel (some lvls) i al af ft cv =
      (if cv < ambientTarget al (lvls i) then
        (if ambientTarget al (lvls i) < cv + ft * (af / 255) then ambientTarget al (lvls i)
         else cv + ft * (af / 255))
       else if ambientTarget al (lvls i) < cv then
        (if cv - ft * (af / 255) < ambientTarget al (lvls i) then ambientTarget al (lvls i)
         else cv - ft * (af / 255))
       else cv) := by
  simp [S_UpdateAmbientChannel, hal]

/-- One ambient update moves the volume by at most the per-frame rate and
never overshoots the target. -/
lemma ambient_step_bound (lvls : Nat → Nat) (i : Nat) (al af ft cv : ℚ)
    (hal : al ≠ 0) (hr : 0 ≤ ft * (af / 255)) :
    |S_UpdateAmbientChannel (some lvls) i al af ft cv - cv| ≤ ft * (af / 255) ∧
    (cv ≤ ambientTarget al (lvls i) →
      S_UpdateAmbientChannel (some lvls) i al af ft cv ≤ ambientTarget al (lvls i)) ∧
    (ambientTarget al (lvls i) ≤ cv →
      ambientTarget al (lvls i) ≤ S_UpdateAmbientChannel (some lvls) i al af ft cv) := by
  rw [ambient_step_eq lvls i al af ft cv hal]
  refine ⟨?_, ?_, ?_⟩
  · rw [abs_le]
    constructor <;> split_ifs <;> linarith
  · intro h
    split_ifs <;> linarith
  · intro h
    split_ifs <;> linarith

/-- The target volume is a fixed point of the ambient update. -/
lemma ambient_step_fixed (lvls : Nat → Nat) (i : Nat) (al af ft : ℚ) (hal : al ≠ 0) :
    S_UpdateAmbientChannel (some lvls) i al af ft (ambientTarget al (lvls i)) =
      ambientTarget al (lvls i) := by
  rw [ambient_step_eq lvls i al af ft (ambientTarget al (lvls i)) hal]
  simp

lemma ambientIter_fixed (lvls : Nat → Nat) (i : Nat) (al af ft : ℚ) (hal : al ≠ 0) :
    ∀ n, ambientIter (some lvls) i al af ft n (ambientTarget al (lvls i)) =
      ambientTarget al (lvls i)
  | 0 => rfl
  | (n + 1) => by
      simp only [ambientIter, ambient_step_fixed lvls i al af ft hal]
      exact ambientIter_fixed lvls i al af ft hal n

/-- From below the target, n updates reach the target whenever n covers the
remaining distance at the per-frame rate. -/
lemma ambientIter_reaches (lvls : Nat → Nat) (i : Nat) (al af ft : ℚ)
    (hal : al ≠ 0) (hr : 0 ≤ ft * (af / 255)) :
    ∀ (n : Nat) (cv : ℚ), cv ≤ ambientTarget al (lvls i) →
      ambientTarget al (lvls i) ≤ cv + n * (ft * (af / 255)) →
      ambientIter (some lvls) i al af ft n cv = ambientTarget al (lvls i)
  | 0, cv, h1, h2 => by
      simp only [ambientIter]
      simp only [Nat.cast_zero, zero_mul, add_zero] at h2
      exact le_antisymm h1 h2
  | (n + 1), cv, h1, h2 => by
      simp only [ambientIter]
      rcases lt_or_eq_of_le h1 with hlt | heq
      · rw [ambient_step_eq lvls i al af ft cv hal, if_pos hlt]
        by_cases hclamp : ambientTarget al (lvls i) < cv + ft * (af / 255)
        · rw [if_pos hclamp]
          exact ambientIter_fixed lvls i al af ft hal n
        · rw [if_neg hclamp]
          refine ambientIter_reaches lvls i al af ft hal hr n (cv + ft * (af / 255))
            (not_lt.mp hclamp) ?_
          push_cast at h2 ⊢
          linarith
      · rw [heq, ambient_step_fixed lvls i al af ft hal]
        exact ambientIter_fixed lvls i al af ft hal n

/-- C5 (amended): while the listener is inside a known leaf and
ambient_level is nonzero, one ambient update moves a channel volume
toward the computed target by at most frametime * (ambient_fade / 255)
without overshooting it, and from volume 0 under a fixed target the
channel reaches the target within target / (frametime * (ambient_fade /
255)) updates; when the listener is in no leaf (and likewise when
ambient_level is zero) the volume is instead set directly to 0. -/
theorem ambient_step_bound_and_convergence :
    (∀ (lvls : Nat → Nat) (i : Nat) (al af ft cv : ℚ), al ≠ 0 → 0 ≤ ft * (af / 255) →
      |S_UpdateAmbientChannel (some lvls) i al af ft cv - cv| ≤ ft * (af / 255) ∧
      (cv ≤ ambientTarget al (lvls i) →
        S_UpdateAmbientChannel (some lvls) i al af ft cv ≤ ambientTarget al (lvls i)) ∧
      (ambientTarget al (lvls i) ≤ cv →
        ambientTarget al (lvls i) ≤ S_UpdateAmbientChannel (some lvls) i al af ft cv)) ∧
    (∀ (lvls : Nat → Nat) (i : Nat) (al af ft : ℚ) (n : Nat), al ≠ 0 →
      0 ≤ ft * (af / 255) →
      ambientTarget al (lvls i) ≤ n * (ft * (af / 255)) →
      ambientIter (some lvls) i al af ft n 0 = ambientTarget al (lvls i)) ∧
    (∀ (i : Nat) (al af ft cv : ℚ), S_UpdateAmbientChannel none i al af ft cv = 0) := by
  refine ⟨?_, ?_, ?_⟩
  · intro lvls i al af ft cv hal hr
    exact ambient_step_bound lvls i al af ft cv hal hr
  · intro lvls i al af ft n hal hr hn
    exact ambientIter_reaches lvls i al af ft hal hr n 0
      (ambientTarget_nonneg al (lvls i)) (by simpa using hn)
  · intro i al af ft cv
    rfl

/-- Witness for C5 (amended): target 1/2 at rate 1/10 is reached from 0 in 5
updates, and one update from volume 0 respects the rate bound. -/
theorem ambient_step_bound_and_convergence_witness :
    (|S_UpdateAmbientChannel (some fun _ => 255) 0 (1 / 2) (51 / 2) 1 0 - 0| ≤
        1 * ((51 / 2) / 255) ∧
      (0 ≤ ambientTarget (1 / 2) 255 →
        S_UpdateAmbientChannel (some fun _ => 255) 0 (1 / 2) (51 / 2) 1 0 ≤
          ambientTarget (1 / 2) 255) ∧
      (ambientTarget (1 / 2) 255 ≤ 0 →
        ambientTarget (1 / 2) 255 ≤
          S_UpdateAmbientChannel (some fun _ => 255) 0 (1 / 2) (51 / 2) 1 0)) ∧
    ambientIter (some fun _ => 255) 0 (1 / 2) (51 / 2) 1 5 0 = ambientTarget (1 / 2) 255 ∧
    S_UpdateAmbientChannel none 0 (1 / 2) (51 / 2) 1 (3 / 4) = 0 :=
  ⟨ambient_step_bound_and_convergence.1 (fun _ => 255) 0 (1 / 2) (51 / 2) 1 0
      (by norm_num) (by norm_num),
   ambient_step_bound_and_convergence.2.1 (fun _ => 255) 0 (1 / 2) (51 / 2) 1 5
      (by norm_num) (by norm_num) (by norm_num [ambientTarget]),
   ambient_step_bound_and_convergence.2.2 0 (1 / 2) (51 / 2) 1 (3 / 4)⟩

/-- C5 counterexample: with the listener in no leaf, one S_Update call sets
ambient channel 0 from volume 1 directly to 0 — a change of 1, far above
the per-frame fade bound frametime * (ambient_fade / 255) = 1/255. -/
theorem ambient_jump_counterexample :
    (S_Update ambState (0, 0, 0) (0, 0, 0) (0, 0, 0) none 1 1 1).ambients 0 = some 0 ∧
    ambState.ambients 0 = some 1 ∧
    ¬ (|(0 : ℚ) - 1| ≤ 1 * (1 / 255)) := by
  refine ⟨rfl, rfl, by norm_num⟩

/-- C8 (amended): when FMOD_System_Create itself fails the system handle
stays NULL and every subsequent playback call — S_StartSound,
S_StaticSound, S_StopSound, S_StopAllSounds, S_Update — is a no-op on
the NULL handle; a failure in any later startup step instead leaves the
handle set with sound_started still false, and playback calls are then
not blocked by it. -/
theorem create_failure_disables_audio (r : StartupResults) (s : SndState)
    (hc : r.createOk = false) (hs : s.fmodSystem = false) :
    (S_Startup r s).fmodSystem = false ∧
    (∀ (en ch : Int) (sfxOpt : Option Sfx) (origin : V3) (fvol att : ℚ) (ve : Int)
        (ns pk : Bool) (rv : Nat),
      S_StartSound s en ch sfxOpt origin fvol att ve ns pk rv = s) ∧
    (∀ (sfxOpt : Option Sfx) (origin : V3) (vol att : ℚ) (pk : Bool) (rv : Nat),
      S_StaticSound s sfxOpt origin vol att pk rv = s) ∧
    (∀ (en ch : Int), S_StopSound s en ch = s) ∧
    (∀ (c : Bool), S_StopAllSounds s c = s) ∧
    (∀ (o f u : V3) (leaf : Option (Nat → Nat)) (al af ft : ℚ),
      S_Update s o f u leaf al af ft = s) := by
  refine ⟨?_, ?_, ?_, ?_, ?_, ?_⟩
  · simp [S_Startup, logMsg, hc, hs]
  · intro en ch sfxOpt origin fvol att ve ns pk rv
    cases sfxOpt <;> simp [S_StartSound, hs]
  · intro sfxOpt origin vol att pk rv
    cases sfxOpt <;> simp [S_StaticSound, hs]
  · intro en ch
    simp [S_StopSound, hs]
  · intro c
    simp [S_StopAllSounds, hs]
  · intro o f u leaf al af ft
    simp [S_Update, hs]

/-- Witness for C8 (amended) at the initial state with a failed
FMOD_System_Create. -/
theorem create_failure_disables_audio_witness :
    (S_Startup { failInitResults with createOk := false, initOk := true }
        initState).fmodSystem = false ∧
    S_StartSound initState 5 1 (some shotSfx) (0, 0, 0) 1 1 0 false true 0 = initState ∧
    S_Update initState (0, 0, 0) (0, 0, 0) (0, 0, 0) none 1 1 1 = initState :=
  ⟨(create_failure_disables_audio
      { failInitResults with createOk := false, initOk := true } initState rfl rfl).1,
   (create_failure_disables_audio
      { failInitResults with createOk := false, initOk := true } initState rfl rfl).2.1
      5 1 (some shotSfx) (0, 0, 0) 1 1 0 false true 0,
   (create_failure_disables_audio
      { failInitResults with createOk := false, initOk := true } initState rfl
      rfl).2.2.2.2.2 (0, 0, 0) (0, 0, 0) (0, 0, 0) none 1 1 1⟩

/-- C8 counterexample: when FMOD_System_Init fails (after FMOD_System_Create
succeeded), startup aborts with sound_started false but the handle set;
S_StartSound on an anonymous channel is then not a no-op — the slot pick
allocates a fresh zone slot even though FMOD_System_PlaySound fails on
the uninitialized system. -/
theorem init_failure_not_noop_counterexample :
    failInitState.soundStarted = false ∧
    failInitState.fmodSystem = true ∧
    (S_StartSound failInitState 0 0 (some shotSfx) (0, 0, 0) 1 1 0 false false
        0).nextAnon = 1 ∧
    failInitState.nextAnon = 0 := by
  exact ⟨rfl, rfl, rfl, rfl⟩

end SndFmod
